import Mathlib

/-!
# Verification of the book-tracking record-linkage pipeline

Shallow embedding of the record-linkage core of the repository
(`book_data_integrator.py`, `story_graph_export_cleaner.py`,
`book_data_write.py`) and proofs about it.

Pandas cell values are dynamically typed: a cell holds a string, a list of
strings, or NaN (missing).  The similarity primitive `fuzz.partial_ratio`
is an external library; it is modelled as an abstract parameter
`sim : String → String → Nat` returning a score in 0..100, which every
theorem quantifies over.  Operations that can raise a Python exception
(AttributeError on `.lower()` of a non-string, IndexError on `.iloc[0]` of
an empty frame) are modelled in the `Except String` monad.
-/

/-- A pandas cell value as the linkage code sees it: NaN (missing), a
string, or a list of strings. -/
inductive Value where
  | nan : Value
  | str : String → Value
  | vlist : List String → Value
deriving DecidableEq, Repr

/-- `Value.notna`: pandas `notna()` / `notnull()` is false exactly on NaN. -/
def Value.notna : Value → Bool
  | Value.nan => false
  | _ => true

/-- One row of the (renamed) Goodreads dataframe, restricted to the fields
the linkage core reads: `goodreads_isbn`, `goodreads_title`, `author`,
`goodreads_review`. -/
structure GRecord where
  goodreads_isbn : Value
  goodreads_title : Value
  author : Value
  goodreads_review : Value
deriving DecidableEq, Repr

/-- One row of the (renamed) StoryGraph dataframe, restricted to the fields
the linkage core reads: `story_graph_isbn`, `story_graph_Title`, `Authors`,
`story_graph_Review`. -/
structure SRecord where
  story_graph_isbn : Value
  story_graph_Title : Value
  Authors : Value
  story_graph_Review : Value
deriving DecidableEq, Repr

/-- A row of the merged dataframe: `pd.concat` of a Goodreads row and a
StoryGraph row (Goodreads fields first). -/
structure MergedRow where
  gr : GRecord
  sg : SRecord
deriving DecidableEq, Repr

/-- The ISBN filter of `join_dataframes` (lines 86-100):
`notna() & (col != '') & notnull()`.  On a non-string cell the pandas
comparison `!= ''` is elementwise inequality with the string `''`. -/
def hasIsbn (v : Value) : Bool := v.notna && !(v == Value.str "")

/-- `goodreads_isbn = goodreads_df[...]`: the keyed Goodreads subset. -/
def grKeyed (gdf : List GRecord) : List GRecord :=
  gdf.filter (fun g => hasIsbn g.goodreads_isbn)

/-- `storygraph_isbn = story_graph_df[...]`: the keyed StoryGraph subset. -/
def sgKeyed (sdf : List SRecord) : List SRecord :=
  sdf.filter (fun s => hasIsbn s.story_graph_isbn)

/-- `pd.merge(goodreads_isbn, storygraph_isbn, left_on='goodreads_isbn',
right_on='story_graph_isbn', how='inner')`: an inner equi-join, producing
one combined row per cross combination of equal keys, in left-key order
with right-frame order within each left row. -/
def exactMerge (gdf : List GRecord) (sdf : List SRecord) : List MergedRow :=
  (grKeyed gdf).flatMap (fun g =>
    (sgKeyed sdf).filterMap (fun s =>
      if g.goodreads_isbn = s.story_graph_isbn then some ⟨g, s⟩ else none))

/-- `~goodreads_df['goodreads_isbn'].isin(merged_df['goodreads_isbn'])`:
rows of the full Goodreads frame whose isbn value does not occur in the
join result's `goodreads_isbn` column (pandas `isin` is membership, with
NaN matching NaN). -/
def grUnmatched (gdf : List GRecord) (sdf : List SRecord) : List GRecord :=
  gdf.filter (fun g =>
    !decide (g.goodreads_isbn ∈ (exactMerge gdf sdf).map (fun r => r.gr.goodreads_isbn)))

/-- `~story_graph_df['story_graph_isbn'].isin(merged_df['story_graph_isbn'])`. -/
def sgUnmatched (gdf : List GRecord) (sdf : List SRecord) : List SRecord :=
  sdf.filter (fun s =>
    !decide (s.story_graph_isbn ∈ (exactMerge gdf sdf).map (fun r => r.sg.story_graph_isbn)))

/-- Python `str.lower()`, modelled per character (ASCII case folding). -/
def pyLower (s : String) : String := ⟨s.data.map Char.toLower⟩

/-- `title_match` / `review_match` (lines 178-185): false unless both cells
are strings, otherwise threshold the similarity of the lowercased values at
80.  The StoryGraph value is the first argument to the similarity call. -/
def strFieldMatch (sim : String → String → Nat) (a b : Value) : Bool :=
  match a, b with
  | Value.str x, Value.str y => decide (sim (pyLower x) (pyLower y) ≥ 80)
  | _, _ => false

/-- `title_match` for a (story_row, goodreads_row) pair. -/
def titleMatch (sim : String → String → Nat) (st : SRecord) (g : GRecord) : Bool :=
  strFieldMatch sim st.story_graph_Title g.goodreads_title

/-- `review_match` for a (story_row, goodreads_row) pair. -/
def reviewMatch (sim : String → String → Nat) (st : SRecord) (g : GRecord) : Bool :=
  strFieldMatch sim st.story_graph_Review g.goodreads_review

/-- `x if isinstance(x, list) else [x]` (lines 148-149, 155-157): a list
cell stays a list; any other cell is wrapped into a singleton list, so a
NaN cell becomes the one-element list `[nan]`. -/
def wrapAuthors : Value → List Value
  | Value.vlist l => l.map Value.str
  | v => [v]

/-- Python `.lower()`: defined on strings, raises AttributeError on any
other value (in particular on NaN). -/
def lowerE : Value → Except String String
  | Value.str s => Except.ok (pyLower s)
  | _ => Except.error "AttributeError: .lower() on non-string"

/-- Inner generator step of the `any(...)` on lines 190-194: for a fixed
`ga` from the goodreads list, scan the StoryGraph author list; each item
evaluates `author.lower()` then `ga.lower()` then the similarity, stopping
at the first score `≥ 80`. -/
def authorAnyInner (sim : String → String → Nat) (ga : Value) :
    List Value → Except String Bool
  | [] => Except.ok false
  | a :: rest => do
      let la ← lowerE a
      let lga ← lowerE ga
      if sim la lga ≥ 80 then pure true else authorAnyInner sim ga rest

/-- The short-circuiting `any(... for ga in goodreads_authors for author in
authors)`: `ga` is the outer loop. -/
def authorAny (sim : String → String → Nat) (authors : List Value) :
    List Value → Except String Bool
  | [] => Except.ok false
  | ga :: rest => do
      let b ← authorAnyInner sim ga authors
      if b then pure true else authorAny sim authors rest

/-- `author_match` (lines 186-194): wrap both cells into lists, and when
both wrapped lists are non-empty run the existential cross scan (which may
raise on non-string elements); otherwise the flag keeps its initial
`False`. -/
def authorMatchE (sim : String → String → Nat) (st : SRecord) (g : GRecord) :
    Except String Bool :=
  let authors := wrapAuthors st.Authors
  let gauthors := wrapAuthors g.author
  if authors.length ≠ 0 && gauthors.length ≠ 0 then
    authorAny sim authors gauthors
  else
    pure false

/-- Body of the doubly nested fuzzy loop for one (story_row, goodreads_row)
combination (lines 175-204): compute all three flags (the author flag may
raise), then emit the concatenated row when `title_match and author_match`,
else when `review_match`, else nothing. -/
def fuzzyMatchPair (sim : String → String → Nat) (st : SRecord) (g : GRecord) :
    Except String (Option MergedRow) := do
  let tm := titleMatch sim st g
  let rm := reviewMatch sim st g
  let am ← authorMatchE sim st g
  if tm && am then
    pure (some ⟨g, st⟩)
  else if rm then
    pure (some ⟨g, st⟩)
  else
    pure none

/-- Inner loop `for _, goodreads_row in goodreads_no_isbn.iterrows()` for a
fixed story row, accumulating the emitted rows in order. -/
def fuzzyInner (sim : String → String → Nat) (st : SRecord) :
    List GRecord → Except String (List MergedRow)
  | [] => Except.ok []
  | g :: rest => do
      let r ← fuzzyMatchPair sim st g
      let rs ← fuzzyInner sim st rest
      match r with
      | some row => pure (row :: rs)
      | none => pure rs

/-- Outer loop `for _, story_row in storygraph_no_isbn.iterrows()`:
StoryGraph-outer, Goodreads-inner, appending each story row's emissions. -/
def fuzzyPhase (sim : String → String → Nat) :
    List SRecord → List GRecord → Except String (List MergedRow)
  | [], _ => Except.ok []
  | st :: rest, grNo => do
      let a ← fuzzyInner sim st grNo
      let b ← fuzzyPhase sim rest grNo
      pure (a ++ b)

/-- `frame.iloc[0]` evaluated inside an (eagerly-evaluated) logging call:
raises IndexError on an empty frame, otherwise a no-op for our purposes. -/
def ilocZeroCheck {α : Type} (l : List α) : Except String Unit :=
  if l.isEmpty then Except.error "IndexError: single positional indexer is out-of-bounds"
  else Except.ok ()

/-- `join_dataframes` (lines 81-233): keyed filters, exact inner join,
unmatched leftovers, fuzzy phase, final concatenation.  Each
`logger.info(..., frame.iloc[0])` call evaluates `iloc[0]` eagerly
regardless of log level, so an empty intermediate frame raises
IndexError at that point. -/
def join_dataframes (sim : String → String → Nat)
    (gdf : List GRecord) (sdf : List SRecord) : Except String (List MergedRow) := do
  let gK := grKeyed gdf
  ilocZeroCheck gK
  let sK := sgKeyed sdf
  ilocZeroCheck sK
  let merged := exactMerge gdf sdf
  ilocZeroCheck merged
  let gNo := grUnmatched gdf sdf
  ilocZeroCheck gNo
  let sNo := sgUnmatched gdf sdf
  ilocZeroCheck sNo
  let fz ← fuzzyPhase sim sNo gNo
  if fz.isEmpty then
    pure merged
  else
    pure (merged ++ fz)

/-- `get_merged_df` (lines 248-252) together with the `merged_df` instance
attribute it reads: the only cross-call state of the integrator, modelled
as an explicit `Option` cache threaded in and out. -/
def get_merged_df (sim : String → String → Nat)
    (gdf : List GRecord) (sdf : List SRecord)
    (cache : Option (List MergedRow)) :
    Except String (List MergedRow × Option (List MergedRow)) :=
  match cache with
  | some m => Except.ok (m, some m)
  | none =>
      match join_dataframes sim gdf sdf with
      | Except.ok m => Except.ok (m, some m)
      | Except.error e => Except.error e

/-- The pure per-combination decision of the fuzzy loop, defined whenever
the author scan does not raise: emit the combined row on
`title_match and author_match`, otherwise on `review_match`, otherwise
nothing. -/
def pairDecision (sim : String → String → Nat) (st : SRecord) (g : GRecord) :
    Option MergedRow :=
  match authorMatchE sim st g with
  | Except.ok am =>
      if titleMatch sim st g && am then some ⟨g, st⟩
      else if reviewMatch sim st g then some ⟨g, st⟩
      else none
  | Except.error _ => none

/-! ## The title-reconciliation heuristic of `book_data_write.py` -/

/-- Membership in Python's `string.printable`: ASCII 32..126 plus the five
whitespace control characters. -/
def pyPrintable (c : Char) : Bool :=
  (32 ≤ c.toNat && c.toNat ≤ 126) || c = '\t' || c = '\n' || c = '\r' ||
    c = '\x0b' || c = '\x0c'

/-- `remove_non_printable` (lines 131-140 of `book_data_write.py`):
keep only characters of `string.printable`. -/
def remove_non_printable (s : String) : String := ⟨s.data.filter pyPrintable⟩

/-- Python `title.replace(char, '')` for a single character: erase every
occurrence of that character. -/
def removeChar (s : String) (c : Char) : String :=
  ⟨s.data.filter (fun x => x != c)⟩

/-- The loop `for char in '[](){}_': title = title.replace(char, '')`
(lines 161-163), applied to one title. -/
def stripPunct (s : String) : String :=
  (['[', ']', '(', ')', '\x7b', '\x7d', '_']).foldl removeChar s

/-- `set(combined_string)` iterated: the distinct characters, modelled in
first-occurrence order (the Python set's iteration order is arbitrary, and
the removal loop's outcome does not depend on it: erasing one character
never changes membership of another). -/
def uniqueCharsOf (l : List Char) : List Char :=
  l.foldl (fun acc c => if acc.contains c then acc else acc ++ [c]) []

/-- The character-removal loop (lines 171-174): for each candidate
character, keep it when it occurs in both current titles, otherwise erase
it from both. -/
def removeUncommon (chars : List Char) (t1 t2 : String) : String × String :=
  chars.foldl
    (fun p c =>
      if p.1.data.contains c && p.2.data.contains c then p
      else (removeChar p.1 c, removeChar p.2 c))
    (t1, t2)

/-- `clean_title` (lines 153-183 of `book_data_write.py`), exactly as
written: note that `title = title.split(':', maxsplit=1)` rebinds the
title to a Python *list* (there is no `[0]` projection), so the very next
`title.replace(char, '')` raises AttributeError whenever either cleaned
title contains a colon; and `combined_string = title1 + title1` doubles
the first title instead of concatenating both, so the candidate character
set is drawn from `title1` alone. -/
def clean_title (title1 title2 : String) : Except String String :=
  let t1 := remove_non_printable title1
  let t2 := remove_non_printable title2
  if t1.data.contains ':' then
    Except.error "AttributeError: 'list' object has no attribute 'replace'"
  else if t2.data.contains ':' then
    Except.error "AttributeError: 'list' object has no attribute 'replace'"
  else
    let u1 := stripPunct t1
    let u2 := stripPunct t2
    let combined := u1 ++ u1
    let p := removeUncommon (uniqueCharsOf combined.data) u1 u2
    if p.1 = p.2 then Except.ok p.1
    else Except.ok ("*" ++ p.1 ++ " + " ++ p.2 ++ "*")

/-- The pure title-reconciliation function as the specification describes
it (spec section 9): keep the pre-colon segment when a colon is present,
use the characters of *both* titles as removal candidates, and never
raise. -/
def clean_title_spec (title1 title2 : String) : String :=
  let t1 := remove_non_printable title1
  let t2 := remove_non_printable title2
  let t1 := if t1.data.contains ':' then (⟨t1.data.takeWhile (· != ':')⟩ : String) else t1
  let t2 := if t2.data.contains ':' then (⟨t2.data.takeWhile (· != ':')⟩ : String) else t2
  let u1 := stripPunct t1
  let u2 := stripPunct t2
  let combined := u1 ++ u2
  let p := removeUncommon (uniqueCharsOf combined.data) u1 u2
  if p.1 = p.2 then p.1
  else "*" ++ p.1 ++ " + " ++ p.2 ++ "*"

/-! ## The StoryGraph `Authors` column transformation -/

/-- Python whitespace as stripped by `str.strip()` (ASCII subset). -/
def pyIsSpace (c : Char) : Bool :=
  c = ' ' || c = '\t' || c = '\n' || c = '\r' || c = '\x0b' || c = '\x0c'

/-- Python `str.strip()`: drop leading and trailing whitespace. -/
def pyStrip (s : String) : String :=
  ⟨((s.data.dropWhile pyIsSpace).reverse.dropWhile pyIsSpace).reverse⟩

/-- Recursive worker for the comma split. -/
def splitCommaAux : List Char → List Char → List (List Char)
  | [], acc => [acc.reverse]
  | c :: rest, acc =>
      if c = ',' then acc.reverse :: splitCommaAux rest []
      else splitCommaAux rest (c :: acc)

/-- Python `str.split(',')`: the comma-separated segments, keeping empty
segments (so the empty string splits to `[""]`). -/
def pySplitComma (s : String) : List String :=
  (splitCommaAux s.data []).map (fun l => ⟨l⟩)

/-- The `Authors` cell transformation of
`StoryGraphExportCleaner.process_file` (lines 95-98):
`.str.split(',')` maps a string to its comma-split list and NaN to NaN;
`.fillna('')` turns that NaN into the empty string; the final
comprehension strips each item — and iterating over the empty string
yields no items, so a missing cell becomes the empty list. -/
def processAuthorsCell (cell : Option String) : List String :=
  match cell with
  | none => []
  | some s => (pySplitComma s).map pyStrip

/-! ## Helper lemmas about the exact-match phase -/

/-- Every row of the exact join is built from a keyed Goodreads row and a
keyed StoryGraph row with equal isbn values. -/
lemma exactMerge_mem {gdf : List GRecord} {sdf : List SRecord} {r : MergedRow}
    (h : r ∈ exactMerge gdf sdf) :
    r.gr ∈ grKeyed gdf ∧ r.sg ∈ sgKeyed sdf ∧
      r.gr.goodreads_isbn = r.sg.story_graph_isbn := by
  rcases List.mem_flatMap.mp h with ⟨g, hg, hr⟩
  rcases List.mem_filterMap.mp hr with ⟨s, hs, hsome⟩
  by_cases hiso : g.goodreads_isbn = s.story_graph_isbn
  · simp only [hiso, if_pos rfl] at hsome
    cases hsome
    exact ⟨hg, hs, hiso⟩
  · simp [hiso] at hsome

/-- Members of the keyed Goodreads subset pass the isbn filter. -/
lemma grKeyed_hasIsbn {gdf : List GRecord} {g : GRecord} (h : g ∈ grKeyed gdf) :
    hasIsbn g.goodreads_isbn = true :=
  (List.mem_filter.mp h).2

/-- Members of the keyed StoryGraph subset pass the isbn filter. -/
lemma sgKeyed_hasIsbn {sdf : List SRecord} {s : SRecord} (h : s ∈ sgKeyed sdf) :
    hasIsbn s.story_graph_isbn = true :=
  (List.mem_filter.mp h).2

/-- For a fixed keyed Goodreads row `g` whose isbn equals `s`'s, the inner
filterMap over the keyed StoryGraph subset contains the combined row
`⟨g, s⟩` once for every occurrence of `s`. -/
lemma count_inner (g : GRecord) (s : SRecord)
    (hiso : g.goodreads_isbn = s.story_graph_isbn) (l : List SRecord) :
    (l.filterMap (fun s' =>
        if g.goodreads_isbn = s'.story_graph_isbn then some ⟨g, s'⟩ else none)).count
      (⟨g, s⟩ : MergedRow) = l.count s := by
  induction l with
  | nil => rfl
  | cons s' rest ih =>
      by_cases hs : s' = s
      · subst hs
        simp only [List.filterMap_cons, if_pos hiso, List.count_cons, ih]
        simp
      · by_cases hiso' : g.goodreads_isbn = s'.story_graph_isbn
        · simp only [List.filterMap_cons, if_pos hiso', List.count_cons, ih]
          have hne : ((⟨g, s'⟩ : MergedRow) == (⟨g, s⟩ : MergedRow)) = false := by
            simp [MergedRow.mk.injEq, hs]
          have hne2 : (s' == s) = false := by simp [hs]
          simp [hne, hne2]
        · simp only [List.filterMap_cons, if_neg hiso', List.count_cons, ih]
          have hne2 : (s' == s) = false := by simp [hs]
          simp [hne2]

/-- Rows produced by the inner filterMap for `g'` all have Goodreads part
`g'`. -/
lemma count_inner_ne (g' g : GRecord) (s : SRecord) (hne : g' ≠ g) (l : List SRecord) :
    (l.filterMap (fun s' =>
        if g'.goodreads_isbn = s'.story_graph_isbn then some ⟨g', s'⟩ else none)).count
      (⟨g, s⟩ : MergedRow) = 0 := by
  rw [List.count_eq_zero]
  intro hmem
  rcases List.mem_filterMap.mp hmem with ⟨s', _, hsome⟩
  by_cases hiso : g'.goodreads_isbn = s'.story_graph_isbn
  · simp only [if_pos hiso] at hsome
    cases hsome
    exact hne rfl
  · simp [hiso] at hsome

/-- Multiplicity of a fixed combined row in the exact join: the product of
the two records' multiplicities in the keyed subsets. -/
lemma count_exactMerge (gdf : List GRecord) (sdf : List SRecord)
    (g : GRecord) (s : SRecord)
    (hiso : g.goodreads_isbn = s.story_graph_isbn) :
    (exactMerge gdf sdf).count (⟨g, s⟩ : MergedRow) =
      (grKeyed gdf).count g * (sgKeyed sdf).count s := by
  unfold exactMerge
  induction grKeyed gdf with
  | nil => simp
  | cons g' rest ih =>
      rw [List.flatMap_cons, List.count_append, ih]
      by_cases hg : g' = g
      · subst hg
        rw [count_inner g' s hiso, List.count_cons]
        simp [Nat.succ_mul, Nat.add_comm]
      · rw [count_inner_ne g' g s hg, List.count_cons]
        have hne2 : (g' == g) = false := by simp [hg]
        simp [hne2]

/-- A non-empty string isbn passes the filter. -/
lemma hasIsbn_str {k : String} (hk : k ≠ "") : hasIsbn (Value.str k) = true := by
  simp [hasIsbn, Value.notna, hk]

/-- Every isbn value appearing in the join result's `goodreads_isbn`
column passes the isbn filter (in particular it is neither NaN nor the
empty string). -/
lemma mergedIsbn_keyed {gdf : List GRecord} {sdf : List SRecord} {v : Value}
    (h : v ∈ (exactMerge gdf sdf).map (fun r => r.gr.goodreads_isbn)) :
    hasIsbn v = true := by
  rcases List.mem_map.mp h with ⟨r, hr, hv⟩
  rcases exactMerge_mem hr with ⟨hgr, _, _⟩
  rw [← hv]
  exact grKeyed_hasIsbn hgr

/-- C2: every cross combination of a Goodreads record and a StoryGraph
record carrying the same non-empty string identifier appears in the
exact-match join, and its multiplicity is the product of the two records'
multiplicities (Cartesian inner-join semantics, no deduplication). -/
theorem exact_match_completeness (gdf : List GRecord) (sdf : List SRecord)
    (g : GRecord) (s : SRecord) (k : String)
    (hg : g ∈ gdf) (hs : s ∈ sdf)
    (hkg : g.goodreads_isbn = Value.str k)
    (hks : s.story_graph_isbn = Value.str k)
    (hk : k ≠ "") :
    (⟨g, s⟩ : MergedRow) ∈ exactMerge gdf sdf ∧
    (exactMerge gdf sdf).count (⟨g, s⟩ : MergedRow) = gdf.count g * sdf.count s := by
  have hgK : g ∈ grKeyed gdf :=
    List.mem_filter.mpr ⟨hg, by rw [hkg]; exact hasIsbn_str hk⟩
  have hsK : s ∈ sgKeyed sdf :=
    List.mem_filter.mpr ⟨hs, by rw [hks]; exact hasIsbn_str hk⟩
  have hiso : g.goodreads_isbn = s.story_graph_isbn := by rw [hkg, hks]
  constructor
  · exact List.mem_flatMap.mpr ⟨g, hgK,
      List.mem_filterMap.mpr ⟨s, hsK, by rw [if_pos hiso]⟩⟩
  · rw [count_exactMerge gdf sdf g s hiso]
    unfold grKeyed sgKeyed
    rw [List.count_filter (by rw [hkg]; exact hasIsbn_str hk),
      List.count_filter (by rw [hks]; exact hasIsbn_str hk)]

/-- Witness for C2 at a concrete input with a duplicated key. -/
theorem exact_match_completeness_witness :
    letI gA : GRecord := ⟨Value.str "7", Value.str "T", Value.nan, Value.nan⟩
    letI sA : SRecord := ⟨Value.str "7", Value.str "T", Value.nan, Value.nan⟩
    letI sB : SRecord := ⟨Value.str "7", Value.str "U", Value.nan, Value.nan⟩
    (⟨gA, sA⟩ : MergedRow) ∈ exactMerge [gA] [sA, sB, sA] ∧
    (exactMerge [gA] [sA, sB, sA]).count (⟨gA, sA⟩ : MergedRow) =
      [gA].count gA * [sA, sB, sA].count sA :=
  exact_match_completeness [⟨Value.str "7", Value.str "T", Value.nan, Value.nan⟩]
    [⟨Value.str "7", Value.str "T", Value.nan, Value.nan⟩,
     ⟨Value.str "7", Value.str "U", Value.nan, Value.nan⟩,
     ⟨Value.str "7", Value.str "T", Value.nan, Value.nan⟩]
    ⟨Value.str "7", Value.str "T", Value.nan, Value.nan⟩
    ⟨Value.str "7", Value.str "T", Value.nan, Value.nan⟩
    "7" (by decide) (by decide) rfl rfl (by decide)

/-- C3: after the exact phase, the unmatched Goodreads set is exactly the
rows whose isbn value does not occur among the join result's goodreads
isbn values; records with an absent or empty identifier are therefore
always unmatched, and every input record is either key-covered by the
join or unmatched.  Symmetrically for the StoryGraph side. -/
theorem unmatched_sets_partition (gdf : List GRecord) (sdf : List SRecord) :
    (∀ g ∈ gdf,
      (g ∈ grUnmatched gdf sdf ↔
        g.goodreads_isbn ∉ (exactMerge gdf sdf).map (fun r => r.gr.goodreads_isbn)) ∧
      ((g.goodreads_isbn = Value.nan ∨ g.goodreads_isbn = Value.str "") →
        g ∈ grUnmatched gdf sdf) ∧
      (g ∈ grUnmatched gdf sdf ∨
        g.goodreads_isbn ∈ (exactMerge gdf sdf).map (fun r => r.gr.goodreads_isbn))) ∧
    (∀ s ∈ sdf,
      (s ∈ sgUnmatched gdf sdf ↔
        s.story_graph_isbn ∉ (exactMerge gdf sdf).map (fun r => r.sg.story_graph_isbn)) ∧
      ((s.story_graph_isbn = Value.nan ∨ s.story_graph_isbn = Value.str "") →
        s ∈ sgUnmatched gdf sdf) ∧
      (s ∈ sgUnmatched gdf sdf ∨
        s.story_graph_isbn ∈ (exactMerge gdf sdf).map (fun r => r.sg.story_graph_isbn))) := by
  constructor
  · intro g hg
    have hiff : g ∈ grUnmatched gdf sdf ↔
        g.goodreads_isbn ∉ (exactMerge gdf sdf).map (fun r => r.gr.goodreads_isbn) := by
      unfold grUnmatched
      rw [List.mem_filter]
      simp [hg]
    refine ⟨hiff, ?_, ?_⟩
    · intro hbad
      apply hiff.mpr
      intro hmem
      have := mergedIsbn_keyed hmem
      rcases hbad with h | h <;> rw [h] at this <;> simp [hasIsbn, Value.notna] at this
    · by_cases hmem :
        g.goodreads_isbn ∈ (exactMerge gdf sdf).map (fun r => r.gr.goodreads_isbn)
      · exact Or.inr hmem
      · exact Or.inl (hiff.mpr hmem)
  · intro s hs
    have hiff : s ∈ sgUnmatched gdf sdf ↔
        s.story_graph_isbn ∉ (exactMerge gdf sdf).map (fun r => r.sg.story_graph_isbn) := by
      unfold sgUnmatched
      rw [List.mem_filter]
      simp [hs]
    refine ⟨hiff, ?_, ?_⟩
    · intro hbad
      apply hiff.mpr
      intro hmem
      rcases List.mem_map.mp hmem with ⟨r, hr, hv⟩
      rcases exactMerge_mem hr with ⟨_, hsgr, _⟩
      have := sgKeyed_hasIsbn hsgr
      rw [hv] at this
      rcases hbad with h | h <;> rw [h] at this <;> simp [hasIsbn, Value.notna] at this
    · by_cases hmem :
        s.story_graph_isbn ∈ (exactMerge gdf sdf).map (fun r => r.sg.story_graph_isbn)
      · exact Or.inr hmem
      · exact Or.inl (hiff.mpr hmem)

/-- Witness for C3 at a concrete input: one matched key, one NaN row and
one keyed-but-partnerless row on each side. -/
theorem unmatched_sets_partition_witness :
    letI gdf : List GRecord :=
      [⟨Value.str "1", Value.str "T", Value.nan, Value.nan⟩,
       ⟨Value.nan, Value.str "X", Value.nan, Value.nan⟩,
       ⟨Value.str "9", Value.str "Y", Value.nan, Value.nan⟩]
    letI sdf : List SRecord :=
      [⟨Value.str "1", Value.str "T", Value.nan, Value.nan⟩,
       ⟨Value.str "", Value.str "Z", Value.nan, Value.nan⟩]
    (⟨Value.nan, Value.str "X", Value.nan, Value.nan⟩ : GRecord) ∈ gdf ∧
      ((⟨Value.nan, Value.str "X", Value.nan, Value.nan⟩ : GRecord) ∈ grUnmatched gdf sdf ∨
        (Value.nan ∈ (exactMerge gdf sdf).map (fun r => r.gr.goodreads_isbn))) ∧
    (⟨Value.str "", Value.str "Z", Value.nan, Value.nan⟩ : SRecord) ∈ sdf ∧
      (⟨Value.str "", Value.str "Z", Value.nan, Value.nan⟩ : SRecord) ∈ sgUnmatched gdf sdf := by
  refine ⟨by decide, ?_, by decide, ?_⟩
  · exact ((unmatched_sets_partition _ _).1
      ⟨Value.nan, Value.str "X", Value.nan, Value.nan⟩ (by decide)).2.2
  · exact ((unmatched_sets_partition _ _).2
      ⟨Value.str "", Value.str "Z", Value.nan, Value.nan⟩ (by decide)).2.1 (Or.inr rfl)

/-! ## Helper lemmas about the author cross scan -/

/-- On an all-string author list the inner scan never raises and computes
the boolean "some StoryGraph author is similar to `gb`". -/
lemma authorAnyInner_strings (sim : String → String → Nat) (gb : String)
    (sa : List String) :
    authorAnyInner sim (Value.str gb) (sa.map Value.str) =
      Except.ok (sa.any (fun a => decide (sim (pyLower a) (pyLower gb) ≥ 80))) := by
  induction sa with
  | nil => rfl
  | cons a rest ih =>
      by_cases h : sim (pyLower a) (pyLower gb) ≥ 80
      · simp [authorAnyInner, lowerE, h, Bind.bind, Except.bind, pure, Except.pure]
      · simp [authorAnyInner, lowerE, h, ih, Bind.bind, Except.bind, pure, Except.pure]

/-- On all-string author lists the whole cross scan never raises and
computes the existential boolean. -/
lemma authorAny_strings (sim : String → String → Nat) (sa gal : List String) :
    authorAny sim (sa.map Value.str) (gal.map Value.str) =
      Except.ok (gal.any (fun b =>
        sa.any (fun a => decide (sim (pyLower a) (pyLower b) ≥ 80)))) := by
  induction gal with
  | nil => rfl
  | cons b rest ih =>
      by_cases h : sa.any (fun a => decide (sim (pyLower a) (pyLower b) ≥ 80))
      · simp [authorAny, authorAnyInner_strings, h, Bind.bind, Except.bind, pure, Except.pure]
      · simp [authorAny, authorAnyInner_strings, h, ih, Bind.bind, Except.bind, pure, Except.pure]

/-- C4: when both author cells are lists of strings, the author predicate
never raises and is true exactly when both lists are non-empty and some
cross pair of authors reaches similarity 80 on the lowercased values — an
existential condition, so extra non-matching authors are irrelevant. -/
theorem author_match_existential (sim : String → String → Nat)
    (st : SRecord) (g : GRecord) (sa gal : List String)
    (h1 : st.Authors = Value.vlist sa) (h2 : g.author = Value.vlist gal) :
    authorMatchE sim st g =
      Except.ok (decide (sa ≠ [] ∧ gal ≠ [] ∧
        ∃ a ∈ sa, ∃ b ∈ gal, sim (pyLower a) (pyLower b) ≥ 80)) := by
  unfold authorMatchE
  rw [h1, h2]
  show (if (sa.map Value.str).length ≠ 0 && (gal.map Value.str).length ≠ 0 then
      authorAny sim (sa.map Value.str) (gal.map Value.str)
    else pure false) = _
  rcases sa with _ | ⟨a0, sa'⟩
  · simp [pure, Except.pure]
  · rcases gal with _ | ⟨b0, gal'⟩
    · simp [pure, Except.pure]
    · rw [if_pos (by simp)]
      rw [authorAny_strings]
      congr 1
      have hsa : (a0 :: sa') ≠ ([] : List String) := by simp
      have hgal : (b0 :: gal') ≠ ([] : List String) := by simp
      rw [Bool.eq_iff_iff]
      simp only [List.any_eq_true, decide_eq_true_eq]
      constructor
      · rintro ⟨b, hb, a, ha, hs⟩
        exact ⟨hsa, hgal, a, ha, b, hb, hs⟩
      · rintro ⟨-, -, a, ha, b, hb, hs⟩
        exact ⟨b, hb, a, ha, hs⟩

/-- Witness for C4: `["Jane Doe"]` against `["J. Doe", "Other"]` with a
similarity that scores only the (jane doe, j. doe) pair at 80 or above:
the pair author-matches despite the unrelated second author. -/
theorem author_match_existential_witness :
    authorMatchE
      (fun a b => if a = "jane doe" && b = "j. doe" then 85 else 0)
      ⟨Value.nan, Value.nan, Value.vlist ["Jane Doe"], Value.nan⟩
      ⟨Value.nan, Value.nan, Value.vlist ["J. Doe", "Other"], Value.nan⟩ =
      Except.ok (decide ((["Jane Doe"] : List String) ≠ [] ∧
        (["J. Doe", "Other"] : List String) ≠ [] ∧
        ∃ a ∈ ["Jane Doe"], ∃ b ∈ ["J. Doe", "Other"],
          (if (pyLower a) = "jane doe" && (pyLower b) = "j. doe" then 85 else 0) ≥ 80)) :=
  author_match_existential
    (fun a b => if a = "jane doe" && b = "j. doe" then 85 else 0)
    ⟨Value.nan, Value.nan, Value.vlist ["Jane Doe"], Value.nan⟩
    ⟨Value.nan, Value.nan, Value.vlist ["J. Doe", "Other"], Value.nan⟩
    ["Jane Doe"] ["J. Doe", "Other"] rfl rfl

/-- A non-string StoryGraph or Goodreads cell makes a string-field
predicate false (the `isinstance` guards). -/
lemma strFieldMatch_false_left (sim : String → String → Nat) {a : Value}
    (b : Value) (h : ∀ t, a ≠ Value.str t) : strFieldMatch sim a b = false := by
  cases hv : a with
  | str t => exact absurd hv (h t)
  | nan => cases b <;> rfl
  | vlist l => cases b <;> rfl

/-- Symmetric guard on the second cell. -/
lemma strFieldMatch_false_right (sim : String → String → Nat) (a : Value)
    {b : Value} (h : ∀ t, b ≠ Value.str t) : strFieldMatch sim a b = false := by
  cases hv : b with
  | str t => exact absurd hv (h t)
  | nan => cases a <;> rfl
  | vlist l => cases a <;> rfl

/-! ## C5: missing-field handling in the fuzzy matcher -/

/-- Counterexample to C5 as stated: a Goodreads record whose `author`
field is NaN is wrapped into the singleton list `[nan]`, and the author
scan then calls `.lower()` on NaN and raises, aborting the fuzzy phase —
the matcher does not treat the predicate as false. -/
theorem missing_field_counterexample :
    fuzzyMatchPair (fun _ _ => 0)
      ⟨Value.nan, Value.str "T", Value.vlist ["A"], Value.nan⟩
      ⟨Value.nan, Value.str "T", Value.nan, Value.nan⟩ =
      Except.error "AttributeError: .lower() on non-string" ∧
    fuzzyPhase (fun _ _ => 0)
      [⟨Value.nan, Value.str "T", Value.vlist ["A"], Value.nan⟩]
      [⟨Value.nan, Value.str "T", Value.nan, Value.nan⟩] =
      Except.error "AttributeError: .lower() on non-string" := by
  constructor <;> rfl

/-- C5 (amended): a missing title or review makes the corresponding
predicate false without raising, and an *empty author list* makes the
author predicate false without raising; but an absent (NaN) author value,
being wrapped into a one-element list, makes the author scan raise
whenever the opposite list is a non-empty string list. -/
theorem missing_field_amended (sim : String → String → Nat)
    (st : SRecord) (g : GRecord) :
    (((∀ t, st.story_graph_Title ≠ Value.str t) ∨
      (∀ t, g.goodreads_title ≠ Value.str t)) → titleMatch sim st g = false) ∧
    (((∀ t, st.story_graph_Review ≠ Value.str t) ∨
      (∀ t, g.goodreads_review ≠ Value.str t)) → reviewMatch sim st g = false) ∧
    (st.Authors = Value.vlist [] → authorMatchE sim st g = Except.ok false) ∧
    (g.author = Value.vlist [] → authorMatchE sim st g = Except.ok false) ∧
    (∀ a rest, st.Authors = Value.vlist (a :: rest) → g.author = Value.nan →
      authorMatchE sim st g = Except.error "AttributeError: .lower() on non-string") := by
  refine ⟨?_, ?_, ?_, ?_, ?_⟩
  · intro h
    unfold titleMatch
    rcases h with h | h
    · exact strFieldMatch_false_left sim _ h
    · exact strFieldMatch_false_right sim _ h
  · intro h
    unfold reviewMatch
    rcases h with h | h
    · exact strFieldMatch_false_left sim _ h
    · exact strFieldMatch_false_right sim _ h
  · intro h
    unfold authorMatchE
    rw [h]
    simp [wrapAuthors, pure, Except.pure]
  · intro h
    unfold authorMatchE
    rw [h]
    simp [wrapAuthors, pure, Except.pure]
  · intro a rest h1 h2
    unfold authorMatchE
    rw [h1, h2]
    show (if ((a :: rest).map Value.str).length ≠ 0 &&
        (wrapAuthors Value.nan).length ≠ 0 then
        authorAny sim ((a :: rest).map Value.str) (wrapAuthors Value.nan)
      else pure false) = _
    rw [if_pos (by simp [wrapAuthors])]
    show authorAny sim ((a :: rest).map Value.str) [Value.nan] = _
    simp [authorAny, authorAnyInner, lowerE, Bind.bind, Except.bind]

/-- Witness for C5 (amended) at concrete records. -/
theorem missing_field_amended_witness :
    titleMatch (fun _ _ => 100)
      ⟨Value.nan, Value.nan, Value.vlist [], Value.nan⟩
      ⟨Value.nan, Value.str "T", Value.vlist ["A"], Value.nan⟩ = false ∧
    reviewMatch (fun _ _ => 100)
      ⟨Value.nan, Value.nan, Value.vlist [], Value.nan⟩
      ⟨Value.nan, Value.str "T", Value.vlist ["A"], Value.nan⟩ = false ∧
    authorMatchE (fun _ _ => 100)
      ⟨Value.nan, Value.nan, Value.vlist [], Value.nan⟩
      ⟨Value.nan, Value.str "T", Value.vlist ["A"], Value.nan⟩ = Except.ok false ∧
    authorMatchE (fun _ _ => 100)
      ⟨Value.nan, Value.nan, Value.vlist ["B"], Value.nan⟩
      ⟨Value.nan, Value.str "T", Value.nan, Value.nan⟩ =
      Except.error "AttributeError: .lower() on non-string" := by
  have h1 := missing_field_amended (fun _ _ => 100)
    ⟨Value.nan, Value.nan, Value.vlist [], Value.nan⟩
    ⟨Value.nan, Value.str "T", Value.vlist ["A"], Value.nan⟩
  have h2 := missing_field_amended (fun _ _ => 100)
    ⟨Value.nan, Value.nan, Value.vlist ["B"], Value.nan⟩
    ⟨Value.nan, Value.str "T", Value.nan, Value.nan⟩
  exact ⟨h1.1 (Or.inl fun t h => nomatch h),
    h1.2.1 (Or.inl fun t h => nomatch h),
    h1.2.2.1 rfl,
    h2.2.2.2.2 "B" [] rfl rfl⟩

/-! ## C1: the per-combination fuzzy decision rule -/

/-- If the per-pair evaluation of the fuzzy loop body does not raise in
the author scan, it returns exactly the pure decision `pairDecision`. -/
lemma fuzzyMatchPair_eq (sim : String → String → Nat) (st : SRecord)
    (g : GRecord) (am : Bool) (h : authorMatchE sim st g = Except.ok am) :
    fuzzyMatchPair sim st g = Except.ok (pairDecision sim st g) := by
  unfold fuzzyMatchPair pairDecision
  rw [h]
  by_cases h1 : titleMatch sim st g && am
  · simp [h1, Bind.bind, Except.bind, pure, Except.pure]
  · by_cases h2 : reviewMatch sim st g <;>
      simp [h1, h2, Bind.bind, Except.bind, pure, Except.pure]

/-- A successful per-pair evaluation means the author scan succeeded. -/
lemma authorMatchE_ok_of_pair {sim : String → String → Nat} {st : SRecord}
    {g : GRecord} {r : Option MergedRow}
    (h : fuzzyMatchPair sim st g = Except.ok r) :
    ∃ am, authorMatchE sim st g = Except.ok am := by
  cases ham : authorMatchE sim st g with
  | ok am => exact ⟨am, rfl⟩
  | error e =>
      unfold fuzzyMatchPair at h
      rw [ham] at h
      simp [Bind.bind, Except.bind] at h

/-- A successful inner (Goodreads) loop collects exactly the pure
per-combination decisions, in Goodreads-frame order. -/
lemma fuzzyInner_ok (sim : String → String → Nat) (st : SRecord) :
    ∀ (grNo : List GRecord) (l : List MergedRow),
      fuzzyInner sim st grNo = Except.ok l →
      l = grNo.filterMap (fun g => pairDecision sim st g) := by
  intro grNo
  induction grNo with
  | nil =>
      intro l h
      simp [fuzzyInner] at h
      simp [h.symm]
  | cons g rest ih =>
      intro l h
      unfold fuzzyInner at h
      cases hr : fuzzyMatchPair sim st g with
      | error e => rw [hr] at h; simp [Bind.bind, Except.bind] at h
      | ok r =>
          rw [hr] at h
          cases hrest : fuzzyInner sim st rest with
          | error e => rw [hrest] at h; simp [Bind.bind, Except.bind] at h
          | ok rs =>
              rw [hrest] at h
              rcases authorMatchE_ok_of_pair hr with ⟨am, ham⟩
              have hpd : r = pairDecision sim st g := by
                have := fuzzyMatchPair_eq sim st g am ham
                rw [hr] at this
                exact (Except.ok.injEq _ _).mp this
              rw [List.filterMap_cons, ← hpd, ← ih rs hrest]
              cases r with
              | some row =>
                  simp [Bind.bind, Except.bind, pure, Except.pure] at h
                  exact h.symm
              | none =>
                  simp [Bind.bind, Except.bind, pure, Except.pure] at h
                  exact h.symm

/-- A successful fuzzy phase is the StoryGraph-outer, Goodreads-inner
flattening of the pure per-combination decisions. -/
lemma fuzzyPhase_ok (sim : String → String → Nat) :
    ∀ (sgNo : List SRecord) (grNo : List GRecord) (l : List MergedRow),
      fuzzyPhase sim sgNo grNo = Except.ok l →
      l = sgNo.flatMap (fun st => grNo.filterMap (fun g => pairDecision sim st g)) := by
  intro sgNo
  induction sgNo with
  | nil =>
      intro grNo l h
      simp [fuzzyPhase] at h
      simp [h.symm]
  | cons st rest ih =>
      intro grNo l h
      unfold fuzzyPhase at h
      cases ha : fuzzyInner sim st grNo with
      | error e => rw [ha] at h; simp [Bind.bind, Except.bind] at h
      | ok a =>
          rw [ha] at h
          cases hb : fuzzyPhase sim rest grNo with
          | error e => rw [hb] at h; simp [Bind.bind, Except.bind] at h
          | ok b =>
              rw [hb] at h
              simp [Bind.bind, Except.bind, pure, Except.pure] at h
              rw [List.flatMap_cons, ← fuzzyInner_ok sim st grNo a ha,
                ← ih grNo b hb]
              exact h.symm

/-- C1: a successful fuzzy phase emits, per ordered (StoryGraph-outer,
Goodreads-inner) combination, at most one combined pair, following the
decision rule "`title_match and author_match`, else `review_match`, else
nothing"; `title_match` and `review_match` hold exactly when both cells
are strings and the similarity of the lowercased values reaches the
fixed threshold 80 (so a score of exactly 80 matches and 79 does not). -/
theorem fuzzy_decision_rule (sim : String → String → Nat)
    (sgNo : List SRecord) (grNo : List GRecord) (l : List MergedRow)
    (h : fuzzyPhase sim sgNo grNo = Except.ok l) :
    l = sgNo.flatMap (fun st => grNo.filterMap (fun g => pairDecision sim st g)) ∧
    (∀ (st : SRecord) (g : GRecord) (am : Bool),
      authorMatchE sim st g = Except.ok am →
      pairDecision sim st g =
        (if titleMatch sim st g && am then some ⟨g, st⟩
         else if reviewMatch sim st g then some ⟨g, st⟩
         else none)) ∧
    (∀ (st : SRecord) (g : GRecord) (t gt : String),
      st.story_graph_Title = Value.str t → g.goodreads_title = Value.str gt →
      (titleMatch sim st g = true ↔ sim (pyLower t) (pyLower gt) ≥ 80)) ∧
    (∀ (st : SRecord) (g : GRecord) (r gr2 : String),
      st.story_graph_Review = Value.str r → g.goodreads_review = Value.str gr2 →
      (reviewMatch sim st g = true ↔ sim (pyLower r) (pyLower gr2) ≥ 80)) ∧
    (∀ (st : SRecord) (g : GRecord),
      ((∀ t, st.story_graph_Title ≠ Value.str t) ∨
       (∀ t, g.goodreads_title ≠ Value.str t)) → titleMatch sim st g = false) ∧
    (∀ (st : SRecord) (g : GRecord),
      ((∀ t, st.story_graph_Review ≠ Value.str t) ∨
       (∀ t, g.goodreads_review ≠ Value.str t)) → reviewMatch sim st g = false) := by
  refine ⟨fuzzyPhase_ok sim sgNo grNo l h, ?_, ?_, ?_, ?_, ?_⟩
  · intro st g am ham
    unfold pairDecision
    rw [ham]
  · intro st g t gt h1 h2
    unfold titleMatch strFieldMatch
    rw [h1, h2]
    simp
  · intro st g r gr2 h1 h2
    unfold reviewMatch strFieldMatch
    rw [h1, h2]
    simp
  · intro st g hmiss
    unfold titleMatch
    rcases hmiss with hm | hm
    · exact strFieldMatch_false_left sim _ hm
    · exact strFieldMatch_false_right sim _ hm
  · intro st g hmiss
    unfold reviewMatch
    rcases hmiss with hm | hm
    · exact strFieldMatch_false_left sim _ hm
    · exact strFieldMatch_false_right sim _ hm

/-! ## C1 witness input, C6, C7 -/

/-- Witness for C1 at a concrete input: one title-and-author fuzzy match. -/
theorem fuzzy_decision_rule_witness :
    fuzzyPhase (fun a b => if a = b then 85 else 0)
      [⟨Value.nan, Value.str "Hobbit", Value.vlist ["a"], Value.nan⟩]
      [⟨Value.nan, Value.str "hobbit", Value.vlist ["A"], Value.nan⟩] =
      Except.ok [⟨⟨Value.nan, Value.str "hobbit", Value.vlist ["A"], Value.nan⟩,
                  ⟨Value.nan, Value.str "Hobbit", Value.vlist ["a"], Value.nan⟩⟩] ∧
    ([⟨⟨Value.nan, Value.str "hobbit", Value.vlist ["A"], Value.nan⟩,
       ⟨Value.nan, Value.str "Hobbit", Value.vlist ["a"], Value.nan⟩⟩] : List MergedRow) =
      [(⟨Value.nan, Value.str "Hobbit", Value.vlist ["a"], Value.nan⟩ : SRecord)].flatMap
        (fun st => [(⟨Value.nan, Value.str "hobbit", Value.vlist ["A"], Value.nan⟩ : GRecord)].filterMap
          (fun g => pairDecision (fun a b => if a = b then 85 else 0) st g)) :=
  ⟨by rfl,
   (fuzzy_decision_rule (fun a b => if a = b then 85 else 0)
      [⟨Value.nan, Value.str "Hobbit", Value.vlist ["a"], Value.nan⟩]
      [⟨Value.nan, Value.str "hobbit", Value.vlist ["A"], Value.nan⟩]
      [⟨⟨Value.nan, Value.str "hobbit", Value.vlist ["A"], Value.nan⟩,
        ⟨Value.nan, Value.str "Hobbit", Value.vlist ["a"], Value.nan⟩⟩] (by rfl)).1⟩

/-- C6: contrary to the claim, an exact-key join that yields zero rows
does not return normally — the unconditional diagnostic
`self.merged_df.iloc[0]` inside `logger.info` (line 120) raises
IndexError.  Here both keyed subsets are non-empty but share no key. -/
theorem empty_join_indexerror :
    join_dataframes (fun _ _ => 0)
      [⟨Value.str "1", Value.str "T", Value.vlist ["A"], Value.nan⟩]
      [⟨Value.str "2", Value.str "T", Value.vlist ["A"], Value.nan⟩] =
      Except.error "IndexError: single positional indexer is out-of-bounds" ∧
    exactMerge
      [⟨Value.str "1", Value.str "T", Value.vlist ["A"], Value.nan⟩]
      [⟨Value.str "2", Value.str "T", Value.vlist ["A"], Value.nan⟩] = [] :=
  ⟨by rfl, by rfl⟩

/-- A successful pass through an `iloc[0]` logging point means the frame
was non-empty and execution continued. -/
lemma bind_check_ok {β : Type} {l : List β} {α : Type}
    {f : Unit → Except String α} {r : α}
    (h : (ilocZeroCheck l >>= f) = Except.ok r) : f () = Except.ok r := by
  unfold ilocZeroCheck at h
  by_cases he : l.isEmpty
  · simp [he, Bind.bind, Except.bind] at h
  · simpa [he, Bind.bind, Except.bind] using h

/-- C7: whenever `join_dataframes` returns a linked collection, that
collection is the exact-match rows followed by the fuzzy-match rows, in
discovery order; and when the fuzzy phase emits nothing the linked
collection is the exact-match set unchanged. -/
theorem linked_is_concat (sim : String → String → Nat)
    (gdf : List GRecord) (sdf : List SRecord) (l : List MergedRow)
    (h : join_dataframes sim gdf sdf = Except.ok l) :
    ∃ fz, fuzzyPhase sim (sgUnmatched gdf sdf) (grUnmatched gdf sdf) = Except.ok fz ∧
      l = exactMerge gdf sdf ++ fz ∧
      (fz = [] → l = exactMerge gdf sdf) := by
  unfold join_dataframes at h
  replace h := bind_check_ok h
  replace h := bind_check_ok h
  replace h := bind_check_ok h
  replace h := bind_check_ok h
  replace h := bind_check_ok h
  cases hfz : fuzzyPhase sim (sgUnmatched gdf sdf) (grUnmatched gdf sdf) with
  | error e => rw [hfz] at h; simp [Bind.bind, Except.bind] at h
  | ok fz =>
      rw [hfz] at h
      refine ⟨fz, rfl, ?_, ?_⟩
      · by_cases hfe : fz.isEmpty
        · have hnil : fz = [] := by simpa [List.isEmpty_iff] using hfe
          simp [Bind.bind, Except.bind, hfe, pure, Except.pure] at h
          simp [← h, hnil]
        · simp [Bind.bind, Except.bind, hfe, pure, Except.pure] at h
          exact h.symm
      · intro hnil
        rw [hnil] at h
        simpa [Bind.bind, Except.bind, pure, Except.pure] using h.symm

/-- Witness for C7 at a concrete input where every phase is non-empty. -/
theorem linked_is_concat_witness :
    ∃ fz,
      fuzzyPhase (fun _ _ => 0)
        (sgUnmatched
          [⟨Value.str "1", Value.str "T", Value.vlist ["A"], Value.nan⟩,
           ⟨Value.nan, Value.str "X", Value.vlist ["B"], Value.nan⟩]
          [⟨Value.str "1", Value.str "T", Value.vlist ["A"], Value.nan⟩,
           ⟨Value.nan, Value.str "Y", Value.vlist ["C"], Value.nan⟩])
        (grUnmatched
          [⟨Value.str "1", Value.str "T", Value.vlist ["A"], Value.nan⟩,
           ⟨Value.nan, Value.str "X", Value.vlist ["B"], Value.nan⟩]
          [⟨Value.str "1", Value.str "T", Value.vlist ["A"], Value.nan⟩,
           ⟨Value.nan, Value.str "Y", Value.vlist ["C"], Value.nan⟩]) = Except.ok fz ∧
      [(⟨⟨Value.str "1", Value.str "T", Value.vlist ["A"], Value.nan⟩,
         ⟨Value.str "1", Value.str "T", Value.vlist ["A"], Value.nan⟩⟩ : MergedRow)] =
        exactMerge
          [⟨Value.str "1", Value.str "T", Value.vlist ["A"], Value.nan⟩,
           ⟨Value.nan, Value.str "X", Value.vlist ["B"], Value.nan⟩]
          [⟨Value.str "1", Value.str "T", Value.vlist ["A"], Value.nan⟩,
           ⟨Value.nan, Value.str "Y", Value.vlist ["C"], Value.nan⟩] ++ fz ∧
      (fz = [] →
        [(⟨⟨Value.str "1", Value.str "T", Value.vlist ["A"], Value.nan⟩,
           ⟨Value.str "1", Value.str "T", Value.vlist ["A"], Value.nan⟩⟩ : MergedRow)] =
          exactMerge
            [⟨Value.str "1", Value.str "T", Value.vlist ["A"], Value.nan⟩,
             ⟨Value.nan, Value.str "X", Value.vlist ["B"], Value.nan⟩]
            [⟨Value.str "1", Value.str "T", Value.vlist ["A"], Value.nan⟩,
             ⟨Value.nan, Value.str "Y", Value.vlist ["C"], Value.nan⟩]) :=
  linked_is_concat (fun _ _ => 0)
    [⟨Value.str "1", Value.str "T", Value.vlist ["A"], Value.nan⟩,
     ⟨Value.nan, Value.str "X", Value.vlist ["B"], Value.nan⟩]
    [⟨Value.str "1", Value.str "T", Value.vlist ["A"], Value.nan⟩,
     ⟨Value.nan, Value.str "Y", Value.vlist ["C"], Value.nan⟩]
    [⟨⟨Value.str "1", Value.str "T", Value.vlist ["A"], Value.nan⟩,
      ⟨Value.str "1", Value.str "T", Value.vlist ["A"], Value.nan⟩⟩] (by rfl)

/-! ## C8: the title-reconciliation heuristic -/

/-- C8: the claim's pure specification of `clean_title` does not hold of
the code.  On `("ab:c", "ab")` the code raises AttributeError — the
source rebinds `title1` to the *list* `title1.split(':', maxsplit=1)`
(no `[0]` projection) and then calls `.replace` on it — where the
specified function keeps the pre-colon segment and returns `"ab"`.  On
`("ab", "abc")` the code builds its candidate set from
`title1 + title1` instead of `title1 + title2`, so the `'c'` that occurs
only in the second title is never removed and the marker
`*ab + abc*` is returned where the specified function returns `"ab"`. -/
theorem clean_title_divergence :
    clean_title "ab:c" "ab" =
      Except.error "AttributeError: 'list' object has no attribute 'replace'" ∧
    clean_title_spec "ab:c" "ab" = "ab" ∧
    clean_title "ab" "abc" = Except.ok "*ab + abc*" ∧
    clean_title_spec "ab" "abc" = "ab" :=
  ⟨by rfl, by rfl, by rfl, by rfl⟩

/-! ## C9: statelessness / idempotence of the linkage run -/

/-- C9: the linkage result is a function of the inputs alone: two runs on
unchanged inputs return the same linked collection (same pairs, same
multiplicities, same order), and the only cross-call state — the
`merged_df` cache read by `get_merged_df` — returns the first run's
result unchanged on a second call. -/
theorem linkage_idempotent (sim : String → String → Nat)
    (gdf : List GRecord) (sdf : List SRecord) :
    (∀ m1 m2, join_dataframes sim gdf sdf = Except.ok m1 →
      join_dataframes sim gdf sdf = Except.ok m2 → m1 = m2) ∧
    (∀ m c, get_merged_df sim gdf sdf none = Except.ok (m, c) →
      get_merged_df sim gdf sdf c = Except.ok (m, c)) := by
  constructor
  · intro m1 m2 h1 h2
    rw [h1] at h2
    exact (Except.ok.injEq _ _).mp h2
  · intro m c h
    unfold get_merged_df at h ⊢
    cases hj : join_dataframes sim gdf sdf with
    | error e => rw [hj] at h; exact absurd h (by simp)
    | ok mp =>
        rw [hj] at h
        have h2 := (Except.ok.injEq _ _).mp h
        cases h2
        rfl

/-- Witness for C9 at a concrete input. -/
theorem linkage_idempotent_witness :
    get_merged_df (fun _ _ => 0)
      [⟨Value.str "1", Value.str "T", Value.vlist ["A"], Value.nan⟩,
       ⟨Value.nan, Value.str "X", Value.vlist ["B"], Value.nan⟩]
      [⟨Value.str "1", Value.str "T", Value.vlist ["A"], Value.nan⟩,
       ⟨Value.nan, Value.str "Y", Value.vlist ["C"], Value.nan⟩]
      (some [⟨⟨Value.str "1", Value.str "T", Value.vlist ["A"], Value.nan⟩,
              ⟨Value.str "1", Value.str "T", Value.vlist ["A"], Value.nan⟩⟩]) =
      Except.ok
        ([⟨⟨Value.str "1", Value.str "T", Value.vlist ["A"], Value.nan⟩,
           ⟨Value.str "1", Value.str "T", Value.vlist ["A"], Value.nan⟩⟩],
         some [⟨⟨Value.str "1", Value.str "T", Value.vlist ["A"], Value.nan⟩,
                ⟨Value.str "1", Value.str "T", Value.vlist ["A"], Value.nan⟩⟩]) :=
  (linkage_idempotent (fun _ _ => 0)
    [⟨Value.str "1", Value.str "T", Value.vlist ["A"], Value.nan⟩,
     ⟨Value.nan, Value.str "X", Value.vlist ["B"], Value.nan⟩]
    [⟨Value.str "1", Value.str "T", Value.vlist ["A"], Value.nan⟩,
     ⟨Value.nan, Value.str "Y", Value.vlist ["C"], Value.nan⟩]).2
    [⟨⟨Value.str "1", Value.str "T", Value.vlist ["A"], Value.nan⟩,
      ⟨Value.str "1", Value.str "T", Value.vlist ["A"], Value.nan⟩⟩]
    (some [⟨⟨Value.str "1", Value.str "T", Value.vlist ["A"], Value.nan⟩,
            ⟨Value.str "1", Value.str "T", Value.vlist ["A"], Value.nan⟩⟩])
    (by rfl)

/-! ## C10: the cleaned `Authors` column -/

/-- `dropWhile` is idempotent. -/
lemma dropWhile_idem (p : Char → Bool) (l : List Char) :
    (l.dropWhile p).dropWhile p = l.dropWhile p := by
  induction l with
  | nil => rfl
  | cons a t ih =>
      by_cases h : p a
      · rw [List.dropWhile_cons_of_pos h]; exact ih
      · rw [List.dropWhile_cons_of_neg h, List.dropWhile_cons_of_neg h]

/-- A non-empty fixed point of `dropWhile` has a head failing `p`. -/
lemma dropWhile_fixed_head {p : Char → Bool} {x : Char} {t : List Char}
    (h : (x :: t).dropWhile p = x :: t) : p x = false := by
  by_contra hc
  have hpx : p x = true := by simpa using hc
  rw [List.dropWhile_cons_of_pos hpx] at h
  have hle := (List.dropWhile_suffix (l := t) p).sublist.length_le
  rw [h] at hle
  simp at hle

/-- Prefixes of a fixed point of `dropWhile` are fixed points. -/
lemma dropWhile_fixed_of_front {p : Char → Bool} {l l' : List Char}
    (hl : l.dropWhile p = l) (hpre : l' <+: l) : l'.dropWhile p = l' := by
  cases l' with
  | nil => rfl
  | cons x t =>
      rcases hpre with ⟨rest, hrest⟩
      have hl2 : l = x :: (t ++ rest) := by rw [← hrest]; rfl
      rw [hl2] at hl
      have hx : p x = false := dropWhile_fixed_head hl
      exact List.dropWhile_cons_of_neg (by simp [hx])

/-- `pyStrip` is idempotent: its output carries no leading or trailing
whitespace. -/
lemma pyStrip_idem (s : String) : pyStrip (pyStrip s) = pyStrip s := by
  unfold pyStrip
  congr 1
  show ((((((s.data.dropWhile pyIsSpace).reverse.dropWhile
      pyIsSpace).reverse).dropWhile pyIsSpace).reverse.dropWhile
      pyIsSpace).reverse) = _
  have hm : (s.data.dropWhile pyIsSpace).dropWhile pyIsSpace =
      s.data.dropWhile pyIsSpace := dropWhile_idem pyIsSpace s.data
  have hpre :
      ((s.data.dropWhile pyIsSpace).reverse.dropWhile pyIsSpace).reverse <+:
        s.data.dropWhile pyIsSpace := by
    have hsuf := List.dropWhile_suffix (l := (s.data.dropWhile pyIsSpace).reverse) pyIsSpace
    have := List.reverse_prefix.mpr hsuf
    simpa using this
  have step1 :
      (((s.data.dropWhile pyIsSpace).reverse.dropWhile pyIsSpace).reverse).dropWhile
        pyIsSpace =
        ((s.data.dropWhile pyIsSpace).reverse.dropWhile pyIsSpace).reverse :=
    dropWhile_fixed_of_front hm hpre
  rw [step1]
  rw [List.reverse_reverse]
  rw [dropWhile_idem]

/-- C10: every `Authors` value produced by the cleaner is a list of
whitespace-stripped strings; a missing cell becomes the empty list, and
in the fuzzy matcher an empty author list makes the author predicate
`Except.ok false` (the empty-list guard) rather than an error. -/
theorem authors_normalized (cell : Option String) :
    (∀ a ∈ processAuthorsCell cell, pyStrip a = a) ∧
    processAuthorsCell none = [] ∧
    (∀ (sim : String → String → Nat) (st : SRecord) (g : GRecord),
      st.Authors = Value.vlist (processAuthorsCell none) →
      authorMatchE sim st g = Except.ok false) := by
  refine ⟨?_, rfl, ?_⟩
  · intro a ha
    cases cell with
    | none => simp [processAuthorsCell] at ha
    | some s =>
        rcases List.mem_map.mp ha with ⟨raw, _, hraw⟩
        rw [← hraw]
        exact pyStrip_idem raw
  · intro sim st g h
    unfold authorMatchE
    rw [h]
    simp [processAuthorsCell, wrapAuthors, pure, Except.pure]

/-- Witness for C10 at a concrete cell and concrete records. -/
theorem authors_normalized_witness :
    (("X" : String) ∈ processAuthorsCell (some " X , Y")) ∧
    pyStrip "X" = "X" ∧
    processAuthorsCell none = [] ∧
    authorMatchE (fun _ _ => 100)
      ⟨Value.nan, Value.nan, Value.vlist (processAuthorsCell none), Value.nan⟩
      ⟨Value.nan, Value.nan, Value.vlist ["A"], Value.nan⟩ = Except.ok false := by
  have h := authors_normalized (some " X , Y")
  have h0 := authors_normalized none
  exact ⟨by decide, h.1 "X" (by decide), h0.2.1,
    h0.2.2 (fun _ _ => 100)
      ⟨Value.nan, Value.nan, Value.vlist (processAuthorsCell none), Value.nan⟩
      ⟨Value.nan, Value.nan, Value.vlist ["A"], Value.nan⟩ rfl⟩
